import Mathlib

/-!
Verification of the cover-image acquisition and caching pipeline of
`application_main.py` (class `CoverImageManager`, lines 67-210).

The embedding translates the Python methods `get_cover_with_fallback`,
`fetch_real_cover_optimized`, `is_network_available` and
`create_instant_fallback_cover` into pure Lean functions.  External
facilities (the HTTP transport, PIL's decoder/thumbnail/fonts/text
measurement, and Python's global `random` stream) are supplied through an
explicit environment record; every HTTP request the code issues is
returned in an instrumentation log so that "network attempt" properties
can be stated.  Images are modelled by the data that determines their
pixels: canvas size plus either the letterboxed downloaded payload or the
placeholder's background colour and rendered text.
-/

namespace BookCover

/-- A catalog book record as consumed by the cover subsystem: the code
reads `book['title']` and `book['author']`, both strings. -/
structure Book where
  title : String
  author : String
deriving DecidableEq

/-- One HTTP request issued by the manager (instrumentation): method, URL
and the `timeout=` argument in tenths of a second, so `timeout=1`
becomes 10 and `timeout=1.5` becomes 15. -/
structure Request where
  method : String
  url : String
  timeoutTenths : Nat
deriving DecidableEq

/-- Outcome of one HTTP call: the transport raises (timeout, connection
error, retries exhausted), or a response with a status code and a body. -/
inductive HTTPOutcome (β : Type) where
  | raise : HTTPOutcome β
  | resp (status : Nat) (body : β) : HTTPOutcome β

/-- One entry of the `docs` array of an Open Library search response; the
only field the code reads is the optional `cover_i` image id
(line 151). -/
structure SearchDoc where
  cover_i : Option Nat
deriving DecidableEq

/-- Body of the metadata-search response: either `response.json()` raises
(malformed JSON) or a parsed document with its `docs` list.  A document
without a `docs` field behaves exactly like an empty list at line 149
(`data.get('docs')` is falsy), so both are modelled as `docs []`. -/
inductive JsonBody where
  | malformed : JsonBody
  | docs (l : List SearchDoc) : JsonBody

/-- Body of the cover-image response: either `Image.open` raises on the
received bytes (undecodable payload) or an image with a payload id and
its pixel size. -/
inductive ImgBody where
  | undecodable : ImgBody
  | image (payload iw ih : Nat) : ImgBody

/-- The ambient world of one call: the responses of the three HTTP
endpoints the code talks to, the PIL facilities it uses (`thumbnail`
geometry, `ImageFont.truetype` availability, the built-in
`ImageFont.load_default` handle, `textbbox` text-width measurement) and
the stream of `random.choice` draws of the global `random` module,
indexed by how many draws happened before. -/
structure Env where
  probe : HTTPOutcome Unit
  search : HTTPOutcome JsonBody
  image : HTTPOutcome ImgBody
  thumb : Nat → Nat → Nat → Nat → Nat × Nat
  truetype : Option Nat
  loadDefault : Nat
  textWidth : Nat → String → Nat
  rngChoice : Nat → Fin 6

/-- An exception inside the `try` block of `fetch_real_cover_optimized`:
a raising request, a `response.json()` failure, or an image decode
failure. -/
inductive PyErr where
  | requestError : PyErr
  | jsonError : PyErr
  | imageError : PyErr
deriving DecidableEq

/-- Pixel content of a resolved cover: a downloaded image letterboxed
onto the white canvas (payload, thumbnailed size, paste position,
lines 160-167), or a generated fallback (background colour and the
optionally rendered title with its font, lines 182-208).  Together with
the canvas size this determines the pixels, so equality of `Img` values
models pixel identity. -/
inductive ImgContent where
  | fetched (payload tw th : Nat) (px py : Int) : ImgContent
  | fallback (bg : String) (text : Option (String × Nat)) : ImgContent
deriving DecidableEq

/-- A resolved cover image: canvas width and height plus content. -/
structure Img where
  width : Nat
  height : Nat
  content : ImgContent
deriving DecidableEq

/-- The rendered title of a fallback cover, if any. -/
def Img.textPart (i : Img) : Option (String × Nat) :=
  match i.content with
  | .fetched _ _ _ _ _ => none
  | .fallback _ t => t

/-- Whether the image is a generated fallback cover. -/
def Img.isFallback (i : Img) : Bool :=
  match i.content with
  | .fetched _ _ _ _ _ => false
  | .fallback _ _ => true

/-- Python `len` on a string counts code points: the length of the
character list. -/
def pyLen (s : String) : Nat := s.data.length

/-- Python slicing `s[:n]` keeps the first `n` code points. -/
def pySlice (s : String) (n : Nat) : String := ⟨s.data.take n⟩

/-- Python `str.strip()`: remove whitespace from both ends. -/
def pyStrip (s : String) : String :=
  ⟨((s.data.dropWhile Char.isWhitespace).reverse.dropWhile Char.isWhitespace).reverse⟩

/-- `.replace(' ', '+')` on a string: a per-character substitution. -/
def plusEncode (s : String) : String :=
  ⟨s.data.map (fun c => if c = ' ' then '+' else c)⟩

/-- The decimal digit character of `d < 10`. -/
def digitChar (d : Nat) : Char := Char.ofNat (48 + d)

/-- Decimal digits of `n`, least significant first, with explicit fuel
(`fuel = n` suffices). -/
def natToRevDigits : Nat → Nat → List Nat
  | 0, _ => []
  | _ + 1, 0 => []
  | fuel + 1, n + 1 => (n + 1) % 10 :: natToRevDigits fuel ((n + 1) / 10)

/-- Python `str(n)` for a non-negative integer: canonical decimal. -/
def natStr (n : Nat) : String :=
  if n = 0 then "0" else ⟨((natToRevDigits n n).map digitChar).reverse⟩

/-- The cache key of line 109:
`f"{book['title']}_{book['author']}_{width}x{height}"`. -/
def coverKey (title author : String) (width height : Nat) : String :=
  title ++ "_" ++ author ++ "_" ++ natStr width ++ "x" ++ natStr height

/-- The failure-memo key of line 116: `f"{book['title']}_{book['author']}"`. -/
def failKey (title author : String) : String :=
  title ++ "_" ++ author

/-- Python dict lookup `d[k]` / `k in d` on the cover cache, modelled as
an association list in insertion order. -/
def dictGet (l : List (String × Img)) (k : String) : Option Img :=
  match l with
  | [] => none
  | (k', v) :: r => if k' = k then some v else dictGet r k

/-- Python dict assignment `d[k] = v`: overwrite in place or append. -/
def pyDictSet (l : List (String × Img)) (k : String) (v : Img) : List (String × Img) :=
  match l with
  | [] => [(k, v)]
  | (k', v') :: r => if k' = k then (k, v) :: r else (k', v') :: pyDictSet r k v

/-- The mutable state of the `CoverImageManager` instance (lines 71-75):
`self.cover_cache` (a dict), `self.failed_covers` (a set), plus the
position in the global `random` stream consumed by `random.choice`. -/
structure MgrState where
  cover_cache : List (String × Img)
  failed_covers : List String
  rngIdx : Nat
deriving DecidableEq

/-- The fresh state built by `CoverImageManager.__init__`. -/
def initState : MgrState := ⟨[], [], 0⟩

/-- The colour palette of line 183. -/
def colors : List String :=
  ["#2c3e50", "#8b4513", "#c2185b", "#4a148c", "#0d47a1", "#37474f"]

/-- `create_instant_fallback_cover` (lines 180-210): pick a random
background colour, draw the bordered canvas, load `arial.ttf` falling
back to the built-in default font, truncate the title to 30 characters
plus an ellipsis, measure it, and render it only when the measured width
fits strictly below `width - 20` (with Python's negative `width - 20`
for `width ≤ 20` behaving exactly like truncated subtraction here, since
the measured width is non-negative).  `rngIdx` is the position in the
global `random.choice` stream. -/
def create_instant_fallback_cover (env : Env) (rngIdx : Nat) (book : Book)
    (width height : Nat) : Img :=
  let bg := colors.getD (env.rngChoice rngIdx).val "#2c3e50"
  let font : Nat :=
    match env.truetype with
    | some f => f
    | none => env.loadDefault
  let title :=
    if 30 < pyLen book.title then pySlice book.title 30 ++ "..." else book.title
  let text_width := env.textWidth font title
  let text := if text_width < width - 20 then some (title, font) else none
  ⟨width, height, .fallback bg text⟩

/-- The connectivity probe request of line 175:
`session.head('https://httpbin.org/status/200', timeout=1)`. -/
def probeRequest : Request :=
  ⟨"HEAD", "https://httpbin.org/status/200", 10⟩

/-- `is_network_available` (lines 171-178): issue the probe, return
whether the status is 200, and `False` when the request raises. -/
def is_network_available (env : Env) : Bool × List Request :=
  match env.probe with
  | .raise => (false, [probeRequest])
  | .resp st _ => (st == 200, [probeRequest])

/-- The metadata-search URL of line 146. -/
def searchUrl (book : Book) : String :=
  "https://openlibrary.org/search.json?title=" ++ plusEncode (pyStrip book.title) ++
    "&author=" ++ plusEncode (pyStrip book.author) ++ "&limit=1"

/-- The image-download request of lines 154-156. -/
def imageRequest (cid : Nat) : Request :=
  ⟨"GET", "https://covers.openlibrary.org/b/id/" ++ natStr cid ++ "-M.jpg", 15⟩

/-- The `try` block of `fetch_real_cover_optimized` (lines 145-168):
search request, status check, `docs` inspection, optional image download,
decode, `thumbnail` resize and centred paste onto a white canvas of
exactly the requested size.  An exception at any step is returned as
`Except.error`; falling off the bottom of any `if` reaches the trailing
`return None` and is `Except.ok none`. -/
def fetchTryBody (env : Env) (url : String) (width height : Nat) :
    Except PyErr (Option Img) × List Request :=
  let sreq : Request := ⟨"GET", url, 15⟩
  match env.search with
  | .raise => (.error .requestError, [sreq])
  | .resp st body =>
    if st = 200 then
      match body with
      | .malformed => (.error .jsonError, [sreq])
      | .docs [] => (.ok none, [sreq])
      | .docs (d :: _) =>
        match d.cover_i with
        | none => (.ok none, [sreq])
        | some cid =>
          match env.image with
          | .raise => (.error .requestError, [sreq, imageRequest cid])
          | .resp ist ibody =>
            if ist = 200 then
              match ibody with
              | .undecodable => (.error .imageError, [sreq, imageRequest cid])
              | .image payload iw ih =>
                let tdims := env.thumb iw ih width height
                let px := (Int.ofNat width - Int.ofNat tdims.1).fdiv 2
                let py := (Int.ofNat height - Int.ofNat tdims.2).fdiv 2
                (.ok (some ⟨width, height, .fetched payload tdims.1 tdims.2 px py⟩),
                 [sreq, imageRequest cid])
            else (.ok none, [sreq, imageRequest cid])
    else (.ok none, [sreq])

/-- `fetch_real_cover_optimized` (lines 135-169): probe first and
short-circuit to `None` when the network is unavailable; otherwise run
the `try` block, with `except: pass` mapping any exception to the
trailing `return None`. -/
def fetch_real_cover_optimized (env : Env) (book : Book) (width height : Nat) :
    Except PyErr (Option Img) × List Request :=
  let pr := is_network_available env
  if pr.1 = false then (Except.ok none, pr.2)
  else
    match fetchTryBody env (searchUrl book) width height with
    | (Except.error _, log) => (Except.ok none, pr.2 ++ log)
    | (Except.ok v, log) => (Except.ok v, pr.2 ++ log)

/-- `get_cover_with_fallback` (lines 107-133): cache lookup, failure-memo
check (returning an uncached fallback), fetch attempt caching a success,
`except Exception` recording the failure memo, and the shared fall-through
that caches the generated fallback.  Returns the image, the successor
state and the request log of the call. -/
def get_cover_with_fallback (env : Env) (book : Book) (width height : Nat)
    (s : MgrState) : Img × MgrState × List Request :=
  let cache_key := coverKey book.title book.author width height
  let fail_key := failKey book.title book.author
  match dictGet s.cover_cache cache_key with
  | some img => (img, s, [])
  | none =>
    if fail_key ∈ s.failed_covers then
      (create_instant_fallback_cover env s.rngIdx book width height,
       { s with rngIdx := s.rngIdx + 1 }, [])
    else
      match fetch_real_cover_optimized env book width height with
      | (Except.ok (some cover), log) =>
        (cover,
         { s with cover_cache := pyDictSet s.cover_cache cache_key cover }, log)
      | (Except.ok none, log) =>
        let fb := create_instant_fallback_cover env s.rngIdx book width height
        (fb,
         { s with cover_cache := pyDictSet s.cover_cache cache_key fb,
                  rngIdx := s.rngIdx + 1 }, log)
      | (Except.error _, log) =>
        let fb := create_instant_fallback_cover env s.rngIdx book width height
        (fb,
         { cover_cache := pyDictSet s.cover_cache cache_key fb,
           failed_covers := s.failed_covers.insert fail_key,
           rngIdx := s.rngIdx + 1 }, log)

/-- One queued `resolve` call of a trace: its ambient world and
arguments. -/
structure Call where
  env : Env
  book : Book
  width : Nat
  height : Nat

/-- Run a sequence of `resolve` calls, threading the manager state. -/
def runTrace (cs : List Call) (s : MgrState) : MgrState :=
  match cs with
  | [] => s
  | c :: r => runTrace r (get_cover_with_fallback c.env c.book c.width c.height s).2.1

/-- Cache well-formedness: every image stored under a cover key has
exactly the pixel size recorded in that key. -/
def cacheSized (l : List (String × Img)) : Prop :=
  ∀ t a w h img, dictGet l (coverKey t a w h) = some img →
    img.width = w ∧ img.height = h

/-- Value of a least-significant-first decimal digit list. -/
def revDigitsVal : List Nat → Nat
  | [] => 0
  | d :: r => d + 10 * revDigitsVal r

/-- Numeric value of a decimal digit character. -/
def charVal (c : Char) : Nat := c.toNat - 48

/-- Value of a least-significant-first list of decimal digit characters. -/
def revCharsVal (l : List Char) : Nat := revDigitsVal (l.map charVal)

/-- Recover the `(width, height)` encoded at the end of a cover key, by
scanning the reversed character list: trailing digits are the height,
then an `x`, then the width digits.  Titles and authors sit further left,
behind an underscore, so they cannot disturb this suffix. -/
def parseSizeRev (rl : List Char) : Option (Nat × Nat) :=
  match rl.dropWhile Char.isDigit with
  | c :: rest =>
    if c = 'x' then
      some (revCharsVal (rest.takeWhile Char.isDigit),
            revCharsVal (rl.takeWhile Char.isDigit))
    else none
  | [] => none

/-- A sample world: network reachable, the metadata search answers 200
with an empty `docs` list (no match), fonts available, text measured 5
pixels wide, `random.choice` cycling through the palette. -/
def envNoDocs : Env :=
  { probe := .resp 200 (), search := .resp 200 (.docs []), image := .raise,
    thumb := fun _ _ w h => (w, h), truetype := some 1, loadDefault := 0,
    textWidth := fun _ _ => 5,
    rngChoice := fun n => ⟨n % 6, Nat.mod_lt _ (by decide)⟩ }

/-- A world where the metadata search finds a match with image id 5 and
the image endpoint serves a decodable 30x40 image. -/
def envFound : Env :=
  { envNoDocs with search := .resp 200 (.docs [⟨some 5⟩]),
                   image := .resp 200 (.image 99 30 40) }

/-- A world where the metadata-search request raises. -/
def envSearchRaise : Env :=
  { envNoDocs with search := .raise }

/-- A world where the connectivity probe raises. -/
def envProbeDown : Env :=
  { envNoDocs with probe := .raise }

/-- A world where `arial.ttf` is unavailable (`ImageFont.truetype`
raises and the code falls back to `ImageFont.load_default`). -/
def envNoTruetype : Env :=
  { envNoDocs with truetype := none }

/-- A sample book. -/
def duneBook : Book := ⟨"Dune", "Frank Herbert"⟩

/-- A book whose title exceeds the 30-character truncation bound. -/
def longBook : Book := ⟨"An Extremely Long Book Title That Overflows", "A"⟩

/-- A manager state whose failure memo already holds the key of the book
`⟨"A", "B"⟩` (the configuration reached through the `except` branch of
`get_cover_with_fallback`). -/
def failedStateAB : MgrState := ⟨[], [failKey "A" "B"], 0⟩

/-- A sample cached image. -/
def sampleImg : Img := ⟨10, 10, .fallback "#2c3e50" none⟩

/-- A manager state with one cache entry and one memoized failure. -/
def sampleState : MgrState := ⟨[("k", sampleImg)], ["A_B"], 0⟩

/-- A sample `resolve` call for traces. -/
def sampleCall : Call := ⟨envNoDocs, duneBook, 5, 5⟩

/-! ### String and decimal-rendering lemmas -/

theorem data_append (a b : String) : (a ++ b).data = a.data ++ b.data := rfl

theorem natToRevDigits_lt_ten :
    ∀ fuel n d, d ∈ natToRevDigits fuel n → d < 10 := by
  intro fuel
  induction fuel with
  | zero => intro n d hd; simp [natToRevDigits] at hd
  | succ f ih =>
    intro n d hd
    cases n with
    | zero => simp [natToRevDigits] at hd
    | succ n =>
      simp only [natToRevDigits, List.mem_cons] at hd
      rcases hd with h | h
      · subst h; exact Nat.mod_lt _ (by decide)
      · exact ih _ _ h

theorem revDigitsVal_natToRevDigits :
    ∀ fuel n, n ≤ fuel → revDigitsVal (natToRevDigits fuel n) = n := by
  intro fuel
  induction fuel with
  | zero => intro n hn; interval_cases n; rfl
  | succ f ih =>
    intro n hn
    cases n with
    | zero => rfl
    | succ n =>
      have hdiv : (n + 1) / 10 ≤ f := by
        have h1 : (n + 1) / 10 < n + 1 := Nat.div_lt_self (Nat.succ_pos n) (by decide)
        omega
      simp only [natToRevDigits, revDigitsVal, ih _ hdiv]
      exact Nat.mod_add_div (n + 1) 10

theorem digitChar_isDigit {d : Nat} (h : d < 10) : (digitChar d).isDigit = true := by
  interval_cases d <;> decide

theorem charVal_digitChar {d : Nat} (h : d < 10) : charVal (digitChar d) = d := by
  interval_cases d <;> decide

theorem natStr_all_digits (n : Nat) : ∀ c ∈ (natStr n).data, c.isDigit = true := by
  unfold natStr
  split
  · intro c hc
    simp only [show ("0" : String).data = ['0'] from rfl, List.mem_singleton] at hc
    subst hc; decide
  · intro c hc
    simp only [String.data, List.mem_reverse, List.mem_map] at hc
    obtain ⟨d, hd, rfl⟩ := hc
    exact digitChar_isDigit (natToRevDigits_lt_ten _ _ _ hd)

theorem revCharsVal_natStr (n : Nat) :
    revCharsVal ((natStr n).data.reverse) = n := by
  unfold natStr
  split
  · subst ‹n = 0›; decide
  · rw [show (String.mk (((natToRevDigits n n).map digitChar).reverse)).data
        = ((natToRevDigits n n).map digitChar).reverse from rfl,
      List.reverse_reverse]
    unfold revCharsVal
    rw [List.map_map]
    have hmap : (natToRevDigits n n).map (charVal ∘ digitChar) = natToRevDigits n n := by
      conv_rhs => rw [← List.map_id (natToRevDigits n n)]
      exact List.map_congr_left fun d hd => by
        simpa using charVal_digitChar (natToRevDigits_lt_ten _ _ _ hd)
    rw [hmap]
    exact revDigitsVal_natToRevDigits n n le_rfl

theorem takeWhile_all_append {p : Char → Bool} :
    ∀ (l₁ : List Char) (x : Char) (l₂ : List Char),
      (∀ c ∈ l₁, p c = true) → p x = false →
      (l₁ ++ x :: l₂).takeWhile p = l₁ := by
  intro l₁
  induction l₁ with
  | nil => intro x l₂ _ hx; simp [List.takeWhile_cons, hx]
  | cons a r ih =>
    intro x l₂ hall hx
    have ha : p a = true := hall a (by simp)
    simp [List.takeWhile_cons, ha, ih x l₂ (fun c hc => hall c (by simp [hc])) hx]

theorem dropWhile_all_append {p : Char → Bool} :
    ∀ (l₁ : List Char) (x : Char) (l₂ : List Char),
      (∀ c ∈ l₁, p c = true) → p x = false →
      (l₁ ++ x :: l₂).dropWhile p = x :: l₂ := by
  intro l₁
  induction l₁ with
  | nil => intro x l₂ _ hx; simp [List.dropWhile_cons, hx]
  | cons a r ih =>
    intro x l₂ hall hx
    have ha : p a = true := hall a (by simp)
    simp [List.dropWhile_cons, ha, ih x l₂ (fun c hc => hall c (by simp [hc])) hx]

theorem parseSizeRev_coverKey (t a : String) (w h : Nat) :
    parseSizeRev ((coverKey t a w h).data.reverse) = some (w, h) := by
  have hdata : (coverKey t a w h).data.reverse
      = (natStr h).data.reverse ++ 'x' ::
        ((natStr w).data.reverse ++ '_' ::
          (a.data.reverse ++ '_' :: t.data.reverse)) := by
    show (t ++ "_" ++ a ++ "_" ++ natStr w ++ "x" ++ natStr h).data.reverse = _
    simp only [data_append]
    simp [show ("_" : String).data = ['_'] from rfl,
      show ("x" : String).data = ['x'] from rfl, List.reverse_append]
  have hdigW : ∀ c ∈ (natStr w).data.reverse, c.isDigit = true := by
    intro c hc; exact natStr_all_digits w c (List.mem_reverse.mp hc)
  have hdigH : ∀ c ∈ (natStr h).data.reverse, c.isDigit = true := by
    intro c hc; exact natStr_all_digits h c (List.mem_reverse.mp hc)
  unfold parseSizeRev
  rw [hdata]
  have hdrop := dropWhile_all_append ((natStr h).data.reverse) 'x'
    ((natStr w).data.reverse ++ '_' :: (a.data.reverse ++ '_' :: t.data.reverse))
    hdigH (by decide)
  have htakeH := takeWhile_all_append ((natStr h).data.reverse) 'x'
    ((natStr w).data.reverse ++ '_' :: (a.data.reverse ++ '_' :: t.data.reverse))
    hdigH (by decide)
  have htakeW := takeWhile_all_append ((natStr w).data.reverse) '_'
    (a.data.reverse ++ '_' :: t.data.reverse) hdigW (by decide)
  simp [hdrop, htakeH, htakeW, revCharsVal_natStr]

theorem coverKey_size_inj {t a t' a' : String} {w h w' h' : Nat}
    (hk : coverKey t a w h = coverKey t' a' w' h') : w = w' ∧ h = h' := by
  have := congrArg (fun s => parseSizeRev s.data.reverse) hk
  simp only [parseSizeRev_coverKey] at this
  have h2 : (w, h) = (w', h') := by injection this
  exact ⟨congrArg Prod.fst h2, congrArg Prod.snd h2⟩

/-! ### Cache-dictionary lemmas -/

theorem dictGet_pyDictSet (l : List (String × Img)) (k k' : String) (v : Img) :
    dictGet (pyDictSet l k v) k' = if k = k' then some v else dictGet l k' := by
  induction l with
  | nil => simp [pyDictSet, dictGet]
  | cons kv r ih =>
    obtain ⟨k₀, v₀⟩ := kv
    by_cases h₀ : k₀ = k
    · subst h₀
      by_cases hk : k₀ = k' <;> simp [pyDictSet, dictGet, hk]
    · by_cases hk0 : k₀ = k' <;> by_cases hk : k = k' <;>
        simp_all [pyDictSet, dictGet]

theorem cacheSized_pyDictSet {l : List (String × Img)} (hs : cacheSized l)
    (t a : String) (w h : Nat) (img : Img)
    (hw : img.width = w) (hh : img.height = h) :
    cacheSized (pyDictSet l (coverKey t a w h) img) := by
  intro t' a' w' h' img' hget
  rw [dictGet_pyDictSet] at hget
  split at hget
  · rename_i heq
    obtain ⟨hww, hhh⟩ := coverKey_size_inj heq
    cases hget
    exact ⟨hww ▸ hw, hhh ▸ hh⟩
  · exact hs _ _ _ _ _ hget

/-! ### Fetcher lemmas -/

theorem is_network_available_log (env : Env) :
    (is_network_available env).2 = [probeRequest] := by
  unfold is_network_available; cases env.probe <;> rfl

theorem fetchTryBody_ok_dims (env : Env) (url : String) (w h : Nat) (img : Img)
    (hres : (fetchTryBody env url w h).1 = Except.ok (some img)) :
    img.width = w ∧ img.height = h := by
  rcases hP : fetchTryBody env url w h with ⟨r, log⟩
  have hr : r = Except.ok (some img) := by rw [hP] at hres; exact hres
  subst hr
  simp only [fetchTryBody] at hP
  repeat' split at hP
  all_goals simp_all
  obtain ⟨h1, h2⟩ := hP
  subst h1
  exact ⟨rfl, rfl⟩

theorem fetch_isOk (env : Env) (b : Book) (w h : Nat) :
    ∃ o, (fetch_real_cover_optimized env b w h).1 = Except.ok o := by
  simp only [fetch_real_cover_optimized]
  split
  · exact ⟨none, rfl⟩
  · split
    · exact ⟨none, rfl⟩
    · exact ⟨_, rfl⟩

theorem fetch_some_dims (env : Env) (b : Book) (w h : Nat) (img : Img)
    (hres : (fetch_real_cover_optimized env b w h).1 = Except.ok (some img)) :
    img.width = w ∧ img.height = h := by
  simp only [fetch_real_cover_optimized] at hres
  split at hres
  · simp at hres
  · split at hres
    · simp at hres
    · rename_i v log heq
      refine fetchTryBody_ok_dims env (searchUrl b) w h img ?_
      rw [heq]
      simpa using hres

theorem fetch_probe_fail (env : Env) (b : Book) (w h : Nat)
    (hp : (is_network_available env).1 = false) :
    fetch_real_cover_optimized env b w h = (Except.ok none, [probeRequest]) := by
  simp [fetch_real_cover_optimized, hp, is_network_available_log]

theorem fetch_log_head (env : Env) (b : Book) (w h : Nat) :
    (fetch_real_cover_optimized env b w h).2.head? = some probeRequest := by
  simp only [fetch_real_cover_optimized]
  split
  · simp [is_network_available_log]
  · split <;> simp [is_network_available_log]

/-! ### Branch lemmas for `get_cover_with_fallback` -/

theorem step_cache_hit {env : Env} {b : Book} {w h : Nat} {s : MgrState} {img : Img}
    (hc : dictGet s.cover_cache (coverKey b.title b.author w h) = some img) :
    get_cover_with_fallback env b w h s = (img, s, []) := by
  simp [get_cover_with_fallback, hc]

theorem step_memo {env : Env} {b : Book} {w h : Nat} {s : MgrState}
    (hc : dictGet s.cover_cache (coverKey b.title b.author w h) = none)
    (hf : failKey b.title b.author ∈ s.failed_covers) :
    get_cover_with_fallback env b w h s =
      (create_instant_fallback_cover env s.rngIdx b w h,
       { s with rngIdx := s.rngIdx + 1 }, []) := by
  simp [get_cover_with_fallback, hc, hf]

theorem step_fetch_some {env : Env} {b : Book} {w h : Nat} {s : MgrState}
    {cover : Img} {log : List Request}
    (hc : dictGet s.cover_cache (coverKey b.title b.author w h) = none)
    (hf : failKey b.title b.author ∉ s.failed_covers)
    (hfetch : fetch_real_cover_optimized env b w h = (Except.ok (some cover), log)) :
    get_cover_with_fallback env b w h s =
      (cover,
       { s with
         cover_cache :=
           (pyDictSet s.cover_cache (coverKey b.title b.author w h) cover) },
       log) := by
  simp [get_cover_with_fallback, hc, hf, hfetch]

theorem step_fetch_none {env : Env} {b : Book} {w h : Nat} {s : MgrState}
    {log : List Request}
    (hc : dictGet s.cover_cache (coverKey b.title b.author w h) = none)
    (hf : failKey b.title b.author ∉ s.failed_covers)
    (hfetch : fetch_real_cover_optimized env b w h = (Except.ok none, log)) :
    get_cover_with_fallback env b w h s =
      (create_instant_fallback_cover env s.rngIdx b w h,
       { s with
         cover_cache :=
           (pyDictSet s.cover_cache (coverKey b.title b.author w h)
             (create_instant_fallback_cover env s.rngIdx b w h)),
         rngIdx := s.rngIdx + 1 },
       log) := by
  simp [get_cover_with_fallback, hc, hf, hfetch]

theorem step_fetch_err {env : Env} {b : Book} {w h : Nat} {s : MgrState}
    {e : PyErr} {log : List Request}
    (hc : dictGet s.cover_cache (coverKey b.title b.author w h) = none)
    (hf : failKey b.title b.author ∉ s.failed_covers)
    (hfetch : fetch_real_cover_optimized env b w h = (Except.error e, log)) :
    get_cover_with_fallback env b w h s =
      (create_instant_fallback_cover env s.rngIdx b w h,
       { cover_cache :=
           (pyDictSet s.cover_cache (coverKey b.title b.author w h)
             (create_instant_fallback_cover env s.rngIdx b w h)),
         failed_covers := s.failed_covers.insert (failKey b.title b.author),
         rngIdx := s.rngIdx + 1 },
       log) := by
  simp [get_cover_with_fallback, hc, hf, hfetch]

/-! ### State-monotonicity lemmas -/

theorem step_cache_mono (env : Env) (b : Book) (w h : Nat) (s : MgrState)
    (k : String) (v : Img) (hv : dictGet s.cover_cache k = some v) :
    dictGet (get_cover_with_fallback env b w h s).2.1.cover_cache k = some v := by
  cases hc : dictGet s.cover_cache (coverKey b.title b.author w h) with
  | some img => rw [step_cache_hit hc]; exact hv
  | none =>
    have hkk : ¬ coverKey b.title b.author w h = k := by
      intro he; rw [he, hv] at hc; exact Option.noConfusion hc
    by_cases hf : failKey b.title b.author ∈ s.failed_covers
    · rw [step_memo hc hf]; exact hv
    · rcases hfp : fetch_real_cover_optimized env b w h with ⟨r, log⟩
      cases r with
      | error e =>
        rw [step_fetch_err hc hf hfp]
        simpa [dictGet_pyDictSet, hkk] using hv
      | ok o =>
        cases o with
        | none =>
          rw [step_fetch_none hc hf hfp]
          simpa [dictGet_pyDictSet, hkk] using hv
        | some cover =>
          rw [step_fetch_some hc hf hfp]
          simpa [dictGet_pyDictSet, hkk] using hv

theorem step_failed_mono (env : Env) (b : Book) (w h : Nat) (s : MgrState)
    (fk : String) (hmem : fk ∈ s.failed_covers) :
    fk ∈ (get_cover_with_fallback env b w h s).2.1.failed_covers := by
  cases hc : dictGet s.cover_cache (coverKey b.title b.author w h) with
  | some img => rw [step_cache_hit hc]; exact hmem
  | none =>
    by_cases hf : failKey b.title b.author ∈ s.failed_covers
    · rw [step_memo hc hf]; exact hmem
    · rcases hfp : fetch_real_cover_optimized env b w h with ⟨r, log⟩
      cases r with
      | error e =>
        rw [step_fetch_err hc hf hfp]
        exact List.mem_insert_of_mem hmem
      | ok o =>
        cases o with
        | none => rw [step_fetch_none hc hf hfp]; exact hmem
        | some cover => rw [step_fetch_some hc hf hfp]; exact hmem

theorem runTrace_cache_mono (cs : List Call) (s : MgrState) (k : String) (v : Img)
    (hv : dictGet s.cover_cache k = some v) :
    dictGet (runTrace cs s).cover_cache k = some v := by
  induction cs generalizing s with
  | nil => exact hv
  | cons c r ih =>
    exact ih _ (step_cache_mono c.env c.book c.width c.height s k v hv)

theorem runTrace_failed_mono (cs : List Call) (s : MgrState) (fk : String)
    (hmem : fk ∈ s.failed_covers) :
    fk ∈ (runTrace cs s).failed_covers := by
  induction cs generalizing s with
  | nil => exact hmem
  | cons c r ih =>
    exact ih _ (step_failed_mono c.env c.book c.width c.height s fk hmem)

/-- A call whose failure key is memoized performs no network request:
either the cache hits or the memo branch answers, both with an empty
request log. -/
theorem step_no_request_of_failed (env : Env) (b : Book) (w h : Nat) (s : MgrState)
    (hf : failKey b.title b.author ∈ s.failed_covers) :
    (get_cover_with_fallback env b w h s).2.2 = [] := by
  cases hc : dictGet s.cover_cache (coverKey b.title b.author w h) with
  | some img => rw [step_cache_hit hc]
  | none => rw [step_memo hc hf]

/-- Any call that does not take the memo branch leaves its cover key
cached (a hit keeps it, every fetch outcome stores something). -/
theorem step_caches_key (env : Env) (b : Book) (w h : Nat) (s : MgrState)
    (hfm : failKey b.title b.author ∉ s.failed_covers) :
    ∃ v, dictGet (get_cover_with_fallback env b w h s).2.1.cover_cache
        (coverKey b.title b.author w h) = some v := by
  cases hc : dictGet s.cover_cache (coverKey b.title b.author w h) with
  | some img => rw [step_cache_hit hc]; exact ⟨img, hc⟩
  | none =>
    rcases hfp : fetch_real_cover_optimized env b w h with ⟨r, log⟩
    cases r with
    | error e =>
      rw [step_fetch_err hc hfm hfp]
      exact ⟨create_instant_fallback_cover env s.rngIdx b w h,
        by simp [dictGet_pyDictSet]⟩
    | ok o =>
      cases o with
      | none =>
        rw [step_fetch_none hc hfm hfp]
        exact ⟨create_instant_fallback_cover env s.rngIdx b w h,
          by simp [dictGet_pyDictSet]⟩
      | some cover =>
        rw [step_fetch_some hc hfm hfp]
        exact ⟨cover, by simp [dictGet_pyDictSet]⟩

/-- Any call that does not take the memo branch leaves its own result
image cached under its cover key: a hit returns the cached image, a
fetched cover is stored at line 124, and the fall-through placeholder is
stored at line 132. -/
theorem step_result_cached {env : Env} {b : Book} {w h : Nat} {s : MgrState}
    (hcases : dictGet s.cover_cache (coverKey b.title b.author w h) ≠ none ∨
      failKey b.title b.author ∉ s.failed_covers) :
    dictGet (get_cover_with_fallback env b w h s).2.1.cover_cache
      (coverKey b.title b.author w h) =
      some (get_cover_with_fallback env b w h s).1 := by
  cases hc : dictGet s.cover_cache (coverKey b.title b.author w h) with
  | some img =>
    have h1 := @step_cache_hit env b w h s img hc
    rw [h1]
    exact hc
  | none =>
    rcases hcases with hne | hf
    · exact absurd hc hne
    · rcases hfp : fetch_real_cover_optimized env b w h with ⟨r, log⟩
      cases r with
      | error e =>
        rw [@step_fetch_err env b w h s e log hc hf hfp]
        simp [dictGet_pyDictSet]
      | ok o =>
        cases o with
        | none =>
          rw [@step_fetch_none env b w h s log hc hf hfp]
          simp [dictGet_pyDictSet]
        | some cover =>
          rw [@step_fetch_some env b w h s cover log hc hf hfp]
          simp [dictGet_pyDictSet]

/-! ### Claim theorems -/

/-- Claim C5 (confirmed): for every book, requested size and manager
state whose cache is well-sized, `resolve` returns (it is total by
construction, every caught exception being handled internally) an image
whose pixel dimensions are exactly the requested `(w, h)` on every path
— cache hit, successful network fetch (the downloaded image is composed
onto a canvas of exactly the requested size) and placeholder fallback —
and the cache stays well-sized. -/
theorem claim_C5_resolve_dims (env : Env) (b : Book) (w h : Nat) (s : MgrState)
    (hs : cacheSized s.cover_cache) :
    ((get_cover_with_fallback env b w h s).1.width = w ∧
     (get_cover_with_fallback env b w h s).1.height = h) ∧
    cacheSized (get_cover_with_fallback env b w h s).2.1.cover_cache := by
  cases hc : dictGet s.cover_cache (coverKey b.title b.author w h) with
  | some img =>
    rw [@step_cache_hit env b w h s img hc]
    exact ⟨hs _ _ _ _ _ hc, hs⟩
  | none =>
    by_cases hf : failKey b.title b.author ∈ s.failed_covers
    · rw [step_memo hc hf]
      exact ⟨⟨rfl, rfl⟩, hs⟩
    · rcases hfp : fetch_real_cover_optimized env b w h with ⟨r, log⟩
      cases r with
      | error e =>
        rw [@step_fetch_err env b w h s e log hc hf hfp]
        exact ⟨⟨rfl, rfl⟩, cacheSized_pyDictSet hs _ _ _ _ _ rfl rfl⟩
      | ok o =>
        cases o with
        | none =>
          rw [@step_fetch_none env b w h s log hc hf hfp]
          exact ⟨⟨rfl, rfl⟩, cacheSized_pyDictSet hs _ _ _ _ _ rfl rfl⟩
        | some cover =>
          obtain ⟨hw, hh⟩ := fetch_some_dims env b w h cover (by rw [hfp])
          rw [@step_fetch_some env b w h s cover log hc hf hfp]
          exact ⟨⟨hw, hh⟩, cacheSized_pyDictSet hs _ _ _ _ _ hw hh⟩

/-- Witness for C5 at a concrete input: the fresh manager state and a
metadata miss still produce a 140x200 image. -/
theorem claim_C5_witness :
    (get_cover_with_fallback envNoDocs duneBook 140 200 initState).1.width = 140 ∧
    (get_cover_with_fallback envNoDocs duneBook 140 200 initState).1.height = 200 :=
  (claim_C5_resolve_dims envNoDocs duneBook 140 200 initState
    (by intro t a w h img hx; simp [initState, dictGet] at hx)).1

/-- Claim C7 (confirmed): the remote fetch never propagates an
exception: its result is always `Except.ok`, and whenever the `try`
block of lines 145-168 raises at any step (search request raising,
malformed JSON, image request raising, image decode failure) the
exception is swallowed and the result is the `NotFound` value `none`;
the probe's own failure is already handled inside
`is_network_available`. -/
theorem claim_C7_fetch_never_raises (env : Env) (b : Book) (w h : Nat) :
    (∃ o, (fetch_real_cover_optimized env b w h).1 = Except.ok o) ∧
    (∀ e, (fetchTryBody env (searchUrl b) w h).1 = Except.error e →
      (fetch_real_cover_optimized env b w h).1 = Except.ok none) := by
  refine ⟨fetch_isOk env b w h, ?_⟩
  intro e he
  simp only [fetch_real_cover_optimized]
  split
  · rfl
  · rcases hP : fetchTryBody env (searchUrl b) w h with ⟨r, log⟩
    have hr : r = Except.error e := by rw [hP] at he; exact he
    subst hr
    rfl

/-- Witness for C7: a raising metadata search is swallowed into
`NotFound`. -/
theorem claim_C7_witness :
    (fetch_real_cover_optimized envSearchRaise duneBook 50 60).1 = Except.ok none :=
  (claim_C7_fetch_never_raises envSearchRaise duneBook 50 60).2 PyErr.requestError rfl

/-- Claim C8 (confirmed): every fetch starts with the 1-second
connectivity probe (it heads the request log); when the probe fails the
fetch returns `NotFound` with the probe as its only request — neither
the metadata-search nor the image-download request, both carrying the
1.5-second timeout, is issued — and a cache-missing `resolve` then
returns a generated placeholder with only 1-second requests in its
log. -/
theorem claim_C8_probe_short_circuit (env : Env) (b : Book) (w h : Nat) (s : MgrState) :
    (fetch_real_cover_optimized env b w h).2.head? = some probeRequest ∧
    ((is_network_available env).1 = false →
      fetch_real_cover_optimized env b w h = (Except.ok none, [probeRequest]) ∧
      (dictGet s.cover_cache (coverKey b.title b.author w h) = none →
        (get_cover_with_fallback env b w h s).1.isFallback = true ∧
        ∀ r ∈ (get_cover_with_fallback env b w h s).2.2, r.timeoutTenths = 10)) := by
  refine ⟨fetch_log_head env b w h,
    fun hp => ⟨fetch_probe_fail env b w h hp, fun hc => ?_⟩⟩
  by_cases hf : failKey b.title b.author ∈ s.failed_covers
  · rw [step_memo hc hf]
    exact ⟨rfl, by simp⟩
  · rw [@step_fetch_none env b w h s [probeRequest] hc hf (fetch_probe_fail env b w h hp)]
    refine ⟨rfl, ?_⟩
    intro r hr
    simp only [List.mem_singleton] at hr
    subst hr
    rfl

/-- Witness for C8: with the probe raising, the fetch stops at the probe
and the fresh-state `resolve` answers with a placeholder. -/
theorem claim_C8_witness :
    fetch_real_cover_optimized envProbeDown duneBook 80 120 =
      (Except.ok none, [probeRequest]) ∧
    (get_cover_with_fallback envProbeDown duneBook 80 120 initState).1.isFallback = true :=
  ⟨((claim_C8_probe_short_circuit envProbeDown duneBook 80 120 initState).2 rfl).1,
   (((claim_C8_probe_short_circuit envProbeDown duneBook 80 120 initState).2 rfl).2 rfl).1⟩

/-- Claim C9 (confirmed): over any sequence of `resolve` calls the cache
and the failure memo only grow — a cached cover key keeps exactly its
stored image (never evicted, never overwritten, since the stores at
lines 124 and 132 happen only after a confirmed miss), a recorded
failure key is never removed — and a book whose failure key is in the
memo is never retried: its `resolve` calls issue no request. -/
theorem claim_C9_monotone_state (s : MgrState) (cs : List Call) :
    (∀ k v, dictGet s.cover_cache k = some v →
      dictGet (runTrace cs s).cover_cache k = some v) ∧
    (∀ fk, fk ∈ s.failed_covers → fk ∈ (runTrace cs s).failed_covers) ∧
    (∀ env b w h, failKey b.title b.author ∈ (runTrace cs s).failed_covers →
      (get_cover_with_fallback env b w h (runTrace cs s)).2.2 = []) :=
  ⟨fun k v hv => runTrace_cache_mono cs s k v hv,
   fun fk hm => runTrace_failed_mono cs s fk hm,
   fun env b w h hm => step_no_request_of_failed env b w h _ hm⟩

/-- Witness for C9 on a concrete one-call trace from a state with one
cache entry and one memoized failure. -/
theorem claim_C9_witness :
    dictGet (runTrace [sampleCall] sampleState).cover_cache "k" = some sampleImg ∧
    "A_B" ∈ (runTrace [sampleCall] sampleState).failed_covers ∧
    (get_cover_with_fallback envNoDocs ⟨"A", "B"⟩ 7 9
      (runTrace [sampleCall] sampleState)).2.2 = [] :=
  ⟨(claim_C9_monotone_state sampleState [sampleCall]).1 "k" sampleImg rfl,
   (claim_C9_monotone_state sampleState [sampleCall]).2.1 "A_B" (by decide),
   (claim_C9_monotone_state sampleState [sampleCall]).2.2 envNoDocs ⟨"A", "B"⟩ 7 9
     (by decide)⟩

/-- Claim C10 (confirmed): the cache/failure keys join title, author and
size with `_`, and that is not injective on (title, author): the books
("A_B", "C") and ("A", "B_C") share both keys, so after the first book's
real cover is fetched and cached, resolving the second book returns the
first book's cover (a non-fallback image) with zero requests; and a
failure recorded for the first book suppresses the network for the
second. -/
theorem claim_C10_key_collision :
    coverKey "A_B" "C" 10 10 = coverKey "A" "B_C" 10 10 ∧
    failKey "A_B" "C" = failKey "A" "B_C" ∧
    ((get_cover_with_fallback envNoDocs ⟨"A", "B_C"⟩ 10 10
        (get_cover_with_fallback envFound ⟨"A_B", "C"⟩ 10 10 initState).2.1).1 =
      (get_cover_with_fallback envFound ⟨"A_B", "C"⟩ 10 10 initState).1 ∧
     (get_cover_with_fallback envFound ⟨"A_B", "C"⟩ 10 10 initState).1.isFallback
       = false ∧
     (get_cover_with_fallback envNoDocs ⟨"A", "B_C"⟩ 10 10
        (get_cover_with_fallback envFound ⟨"A_B", "C"⟩ 10 10 initState).2.1).2.2
       = []) ∧
    (get_cover_with_fallback envNoDocs ⟨"A", "B_C"⟩ 10 10
        ⟨[], [failKey "A_B" "C"], 0⟩).2.2 = [] := by
  exact ⟨by decide, by decide, ⟨by decide, by decide, by decide⟩, by decide⟩

/-- Claim C1 counterexample: `fetch` returns `NotFound` for
("Dune", "Frank Herbert") at 140x200 (empty `docs`), yet a later
`resolve` for the same title and author at 120x160 issues two real
requests (connectivity probe plus a second metadata search): the code
never memoizes a `NotFound`, so a different requested size reaches the
network again, refuting at-most-one-attempt-per-(title, author). -/
theorem claim_C1_cex :
    (fetch_real_cover_optimized envNoDocs duneBook 140 200).1 = Except.ok none ∧
    ((get_cover_with_fallback envNoDocs duneBook 120 160
        (get_cover_with_fallback envNoDocs duneBook 140 200 initState).2.1).2.2).length
      = 2 :=
  ⟨rfl, by decide⟩

/-- Claim C1 (amended): the process memoizes per cover key, not per
(title, author): once a `resolve` whose failure key was not memoized has
completed — in particular once `fetch` has returned `NotFound` for the
pair at size (w, h) — every later `resolve` with the same title, author,
width and height, after arbitrary interleaved calls, performs zero
network requests, being served from the cache; only a different size can
reach the network again. -/
theorem claim_C1_size_memoized (s : MgrState) (env₁ env₂ : Env) (b : Book)
    (w h : Nat) (cs : List Call)
    (hmemo : failKey b.title b.author ∉ s.failed_covers)
    (hnf : (fetch_real_cover_optimized env₁ b w h).1 = Except.ok none) :
    (get_cover_with_fallback env₂ b w h
      (runTrace cs (get_cover_with_fallback env₁ b w h s).2.1)).2.2 = [] := by
  obtain ⟨v, hv⟩ := step_caches_key env₁ b w h s hmemo
  have hv2 := runTrace_cache_mono cs _ _ v hv
  rw [step_cache_hit hv2]

/-- Witness for amended C1: after a `NotFound` at 140x200, the immediate
repeat at the same size issues no request even in a world where the
network would now answer. -/
theorem claim_C1_witness :
    (get_cover_with_fallback envFound duneBook 140 200
      (runTrace [] (get_cover_with_fallback envNoDocs duneBook 140 200
        initState).2.1)).2.2 = [] :=
  claim_C1_size_memoized initState envNoDocs envFound duneBook 140 200 []
    (by decide) rfl

/-- Claim C2 counterexample: `fetch` completes with `NotFound` (empty
`docs`) for ("Dune", "Frank Herbert"), yet after the `resolve` call the
failure memo is still empty — `hasFailed` is false — because line 128
records a failure only in the `except` branch, which a plain `None`
return never enters. -/
theorem claim_C2_cex :
    (fetch_real_cover_optimized envNoDocs duneBook 140 200).1 = Except.ok none ∧
    (get_cover_with_fallback envNoDocs duneBook 140 200 initState).2.1.failed_covers
      = [] :=
  ⟨rfl, by decide⟩

/-- Claim C2 (amended): when the fetch step completes with `NotFound`
without raising, the failure memo is not updated: it is exactly what it
was before the call, and in particular `hasFailed` for the pair stays
false; the memo changes only when the fetch call raises. -/
theorem claim_C2_no_memo_on_notfound (env : Env) (b : Book) (w h : Nat)
    (s : MgrState)
    (hc : dictGet s.cover_cache (coverKey b.title b.author w h) = none)
    (hf : failKey b.title b.author ∉ s.failed_covers)
    (hnf : (fetch_real_cover_optimized env b w h).1 = Except.ok none) :
    (get_cover_with_fallback env b w h s).2.1.failed_covers = s.failed_covers ∧
    failKey b.title b.author ∉
      (get_cover_with_fallback env b w h s).2.1.failed_covers := by
  rcases hfp : fetch_real_cover_optimized env b w h with ⟨r, log⟩
  have hr : r = Except.ok none := by rw [hfp] at hnf; exact hnf
  subst hr
  rw [@step_fetch_none env b w h s log hc hf hfp]
  exact ⟨rfl, hf⟩

/-- Witness for amended C2 at a concrete `NotFound`. -/
theorem claim_C2_witness :
    (get_cover_with_fallback envNoDocs duneBook 140 200 initState).2.1.failed_covers
      = initState.failed_covers :=
  (claim_C2_no_memo_on_notfound envNoDocs duneBook 140 200 initState rfl
    (by decide) rfl).1

/-- Claim C3 counterexample: a `resolve` that falls through to the
placeholder via the failure-memo branch (lines 117-118) returns a
generated fallback WITHOUT storing it in the cache: the cover key is
still absent afterwards, so a repeated identical call is not a cache
hit. -/
theorem claim_C3_cex :
    (get_cover_with_fallback envNoDocs ⟨"A", "B"⟩ 30 40 failedStateAB).1.isFallback
      = true ∧
    dictGet (get_cover_with_fallback envNoDocs ⟨"A", "B"⟩ 30 40
        failedStateAB).2.1.cover_cache (coverKey "A" "B" 30 40) = none := by
  exact ⟨by decide, by decide⟩

/-- Claim C3 (amended): on the fall-through path after an actual fetch
attempt that returned `NotFound`, the generated placeholder is stored
under the cover key before being returned, and a repeated `resolve` with
the same arguments is a cache hit returning the same image with zero
requests; on the failure-memo branch, however, the placeholder is
returned without being cached. -/
theorem claim_C3_placeholder_cached (env env₂ : Env) (b : Book) (w h : Nat)
    (s : MgrState)
    (hc : dictGet s.cover_cache (coverKey b.title b.author w h) = none)
    (hf : failKey b.title b.author ∉ s.failed_covers)
    (hnf : (fetch_real_cover_optimized env b w h).1 = Except.ok none) :
    dictGet (get_cover_with_fallback env b w h s).2.1.cover_cache
      (coverKey b.title b.author w h) = some (get_cover_with_fallback env b w h s).1 ∧
    (get_cover_with_fallback env₂ b w h
      (get_cover_with_fallback env b w h s).2.1).1 =
      (get_cover_with_fallback env b w h s).1 ∧
    (get_cover_with_fallback env₂ b w h
      (get_cover_with_fallback env b w h s).2.1).2.2 = [] := by
  have hget := @step_result_cached env b w h s (Or.inr hf)
  exact ⟨hget, by rw [step_cache_hit hget], by rw [step_cache_hit hget]⟩

/-- Witness for amended C3 at a concrete `NotFound`. -/
theorem claim_C3_witness :
    (get_cover_with_fallback envFound duneBook 140 200
      (get_cover_with_fallback envNoDocs duneBook 140 200 initState).2.1).2.2 = [] :=
  (claim_C3_placeholder_cached envNoDocs envFound duneBook 140 200 initState rfl
    (by decide) rfl).2.2

/-- Claim C4 counterexample: with ("A", "B") in the failure memo and the
size uncached, two successive identical `resolve` calls both take the
uncached memo branch and draw successive `random.choice` colours, so the
second call's image is not pixel-identical to the first (even though it
still issues zero network requests). -/
theorem claim_C4_cex :
    ((get_cover_with_fallback envNoDocs ⟨"A", "B"⟩ 100 150
        (get_cover_with_fallback envNoDocs ⟨"A", "B"⟩ 100 150
          failedStateAB).2.1).1 ≠
      (get_cover_with_fallback envNoDocs ⟨"A", "B"⟩ 100 150 failedStateAB).1) ∧
    (get_cover_with_fallback envNoDocs ⟨"A", "B"⟩ 100 150
        (get_cover_with_fallback envNoDocs ⟨"A", "B"⟩ 100 150
          failedStateAB).2.1).2.2 = [] := by
  exact ⟨by decide, by decide⟩

/-- Claim C4 (amended): of two successive `resolve` calls with the same
book and size, the second always performs zero network requests; it
returns a pixel-identical image whenever the first call did not take the
failure-memo branch (cover key already cached, or failure key not
memoized) — when the pair is memoized and the size uncached, each call
regenerates a fresh randomly coloured placeholder instead. -/
theorem claim_C4_idempotent (env₁ env₂ : Env) (b : Book) (w h : Nat)
    (s : MgrState) :
    (get_cover_with_fallback env₂ b w h
      (get_cover_with_fallback env₁ b w h s).2.1).2.2 = [] ∧
    ((dictGet s.cover_cache (coverKey b.title b.author w h) ≠ none ∨
      failKey b.title b.author ∉ s.failed_covers) →
      (get_cover_with_fallback env₂ b w h
        (get_cover_with_fallback env₁ b w h s).2.1).1 =
        (get_cover_with_fallback env₁ b w h s).1) := by
  constructor
  · by_cases hmix : dictGet s.cover_cache (coverKey b.title b.author w h) ≠ none ∨
        failKey b.title b.author ∉ s.failed_covers
    · have hget := @step_result_cached env₁ b w h s hmix
      rw [step_cache_hit hget]
    · rw [not_or, not_not, not_not] at hmix
      obtain ⟨h1, h2⟩ := hmix
      have hs1 := @step_memo env₁ b w h s h1 h2
      have e2 : (get_cover_with_fallback env₁ b w h s).2.1
          = { s with rngIdx := s.rngIdx + 1 } := by rw [hs1]
      rw [e2, @step_memo env₂ b w h { s with rngIdx := s.rngIdx + 1 } h1 h2]
  · intro hmix
    have hget := @step_result_cached env₁ b w h s hmix
    rw [step_cache_hit hget]

/-- Witness for amended C4: a fresh-state pair of identical calls is
pixel-identical the second time. -/
theorem claim_C4_witness :
    (get_cover_with_fallback envFound duneBook 140 200
      (get_cover_with_fallback envNoDocs duneBook 140 200 initState).2.1).1 =
      (get_cover_with_fallback envNoDocs duneBook 140 200 initState).1 :=
  (claim_C4_idempotent envNoDocs envFound duneBook 140 200 initState).2
    (Or.inr (by decide))

/-- Claim C6 counterexample: with `arial.ttf` unavailable the generator
does not degrade to "no text": it renders the fitting title with the
built-in default font, so the image carries the text in the very case
the claim says it would be rendered without it. -/
theorem claim_C6_cex :
    envNoTruetype.truetype = none ∧
    (create_instant_fallback_cover envNoTruetype 0 ⟨"Hi", "A"⟩ 100 150).textPart =
      some ("Hi", envNoTruetype.loadDefault) :=
  ⟨rfl, by decide⟩

/-- Claim C6 (amended): the placeholder generator is total and returns a
canvas of exactly the requested size for every book (empty, whitespace
or over-long titles included) and size; any rendered text is the title
truncated to 30 characters plus an ellipsis when the title is over-long;
when `arial.ttf` is unavailable it degrades to the built-in default font
and still renders the title whenever it fits, dropping the text only
when the measured width does not fit strictly below `width - 20` — in
particular always when `width ≤ 20`. -/
theorem claim_C6_placeholder_total (env : Env) (idx : Nat) (b : Book) (w h : Nat) :
    ((create_instant_fallback_cover env idx b w h).width = w ∧
     (create_instant_fallback_cover env idx b w h).height = h) ∧
    (30 < pyLen b.title → ∀ t f,
      (create_instant_fallback_cover env idx b w h).textPart = some (t, f) →
      t = pySlice b.title 30 ++ "...") ∧
    (env.truetype = none →
      ((create_instant_fallback_cover env idx b w h).textPart = none ∨
       ∃ t, (create_instant_fallback_cover env idx b w h).textPart =
         some (t, env.loadDefault))) ∧
    (w ≤ 20 → (create_instant_fallback_cover env idx b w h).textPart = none) := by
  refine ⟨⟨rfl, rfl⟩, ?_, ?_, ?_⟩
  · intro hlen t f ht
    simp only [create_instant_fallback_cover, Img.textPart, hlen, if_true] at ht
    split at ht
    · simp only [Option.some.injEq, Prod.mk.injEq] at ht
      exact ht.1.symm
    · simp at ht
  · intro htt
    simp only [create_instant_fallback_cover, Img.textPart, htt]
    split <;> split <;> first
      | exact Or.inr ⟨_, rfl⟩
      | exact Or.inl rfl
  · intro hw
    have hz : w - 20 = 0 := Nat.sub_eq_zero_of_le hw
    simp [create_instant_fallback_cover, Img.textPart, hz]

/-- Witness for amended C6: with `arial.ttf` missing, the over-long
title is rendered truncated with the default font; a 15-pixel-wide
canvas drops the text. -/
theorem claim_C6_witness :
    ((create_instant_fallback_cover envNoTruetype 0 longBook 100 150).textPart = none ∨
     ∃ t, (create_instant_fallback_cover envNoTruetype 0 longBook 100 150).textPart =
       some (t, envNoTruetype.loadDefault)) ∧
    (pySlice longBook.title 30 ++ "..." = pySlice longBook.title 30 ++ "...") ∧
    (create_instant_fallback_cover envNoDocs 0 duneBook 15 30).textPart = none :=
  ⟨(claim_C6_placeholder_total envNoTruetype 0 longBook 100 150).2.2.1 rfl,
   (claim_C6_placeholder_total envNoTruetype 0 longBook 100 150).2.1 (by decide)
     (pySlice longBook.title 30 ++ "...") envNoTruetype.loadDefault (by decide),
   (claim_C6_placeholder_total envNoDocs 0 duneBook 15 30).2.2.2 (by decide)⟩

end BookCover
